import Mathlib

/-!
Verification of the Weather-Forecast-ML-System repository.

This file shallowly embeds the core pipeline of `src/model/train.py`
(`WeatherFeatureEngineer`, `WeatherMLModel.train`, `WeatherMLModel.predict`),
the registry service of `src/app/services/model_registry.py`, and the
validation gate of `src/scripts/validate_model.py`, and proves or refutes
the frozen claims about them.

Modelling conventions:
* A pandas `DataFrame` is a `Frame`: a shared `header` of column names, a
  `dates` field holding the `date` column (days since 1970-01-01, as in
  pandas datetimes), and row-major `rows` of cells; a cell is `Option ℚ`
  (`none` is NaN / an undefined cell).
* Machine floats are modelled by `ℚ`.  The transcendental float functions
  used by the pipeline (`np.sin`, `np.cos`, `sqrt` inside `rolling.std`,
  float `**`) and the float constant `np.pi` are abstracted as a `NumOps`
  parameter: every claim settled here is independent of their values, and
  universal theorems quantify over all `NumOps`.
* Fallible code returns `Except`; fitted sklearn ensembles are abstracted
  as total functions `List ℚ → ℚ` on a feature row, since the claims never
  depend on a fitted model's numeric output.
-/

namespace WeatherSpec

/-! ## Calendar arithmetic (pandas `.dt` accessors)

`civilFromDays`/`daysFromCivil` are the standard civil-calendar conversions
(the same algorithm used by date libraries), with `Int.tdiv` matching C/C++
truncated division used in the reference algorithm.  They model
`pd.to_datetime(...).dt.*` on day-resolution datetimes. -/

def isLeapYear (y : ℤ) : Bool :=
  (y % 4 == 0 && y % 100 != 0) || y % 400 == 0

def cumDaysBeforeMonth (m : ℤ) : ℤ :=
  if m ≤ 1 then 0 else if m = 2 then 31 else if m = 3 then 59
  else if m = 4 then 90 else if m = 5 then 120 else if m = 6 then 151
  else if m = 7 then 181 else if m = 8 then 212 else if m = 9 then 243
  else if m = 10 then 273 else if m = 11 then 304 else 334

def civilFromDays (z0 : ℤ) : ℤ × ℤ × ℤ :=
  let z := z0 + 719468
  let era := Int.tdiv (if 0 ≤ z then z else z - 146096) 146097
  let doe := z - era * 146097
  let yoe := Int.tdiv (doe - Int.tdiv doe 1460 + Int.tdiv doe 36524 - Int.tdiv doe 146096) 365
  let y := yoe + era * 400
  let doy := doe - (365 * yoe + Int.tdiv yoe 4 - Int.tdiv yoe 100)
  let mp := Int.tdiv (5 * doy + 2) 153
  let d := doy - Int.tdiv (153 * mp + 2) 5 + 1
  let m := mp + (if mp < 10 then 3 else -9)
  (y + (if m ≤ 2 then 1 else 0), m, d)

def daysFromCivil (y0 m d : ℤ) : ℤ :=
  let y := y0 - (if m ≤ 2 then 1 else 0)
  let era := Int.tdiv (if 0 ≤ y then y else y - 399) 400
  let yoe := y - era * 400
  let doy := Int.tdiv (153 * (m + (if 2 < m then -3 else 9)) + 2) 5 + d - 1
  let doe := yoe * 365 + Int.tdiv yoe 4 - Int.tdiv yoe 100 + doy
  era * 146097 + doe - 719468

def yearOf (z : ℤ) : ℤ := (civilFromDays z).1

def monthOf (z : ℤ) : ℤ := (civilFromDays z).2.1

def dayOfMonthOf (z : ℤ) : ℤ := (civilFromDays z).2.2

/-- Pandas `dt.dayofweek`: Monday = 0.  1970-01-01 (day 0) was a Thursday. -/
def dayOfWeekOf (z : ℤ) : ℤ := (z + 3) % 7

def dayOfYearOf (z : ℤ) : ℤ :=
  cumDaysBeforeMonth (monthOf z) + dayOfMonthOf z +
    (if 2 < monthOf z ∧ isLeapYear (yearOf z) then 1 else 0)

def quarterOf (z : ℤ) : ℤ := Int.tdiv (monthOf z + 2) 3

def isoWeeksInYear (y : ℤ) : ℤ :=
  let jan1 := dayOfWeekOf (daysFromCivil y 1 1)
  if jan1 = 3 ∨ (isLeapYear y ∧ jan1 = 2) then 53 else 52

/-- Pandas `dt.isocalendar().week` (ISO-8601 week number). -/
def weekOfYearOf (z : ℤ) : ℤ :=
  let isodw := dayOfWeekOf z + 1
  let w := Int.tdiv (dayOfYearOf z - isodw + 10) 7
  if w < 1 then isoWeeksInYear (yearOf z - 1)
  else if isoWeeksInYear (yearOf z) < w then 1 else w

/-! ## Abstracted float transcendentals -/

/-- The real-valued float functions the pipeline applies cell-wise.  They are
abstracted because every claim below is independent of their values; like
their numpy counterparts on the inputs the pipeline feeds them, they are
total (they never introduce an undefined cell). -/
structure NumOps where
  sin : ℚ → ℚ
  cos : ℚ → ℚ
  sqrt : ℚ → ℚ
  rpow : ℚ → ℚ → ℚ
  pi : ℚ

/-- A concrete instantiation of `NumOps` used for evaluating the embedding on
concrete inputs (the settled claims hold for every `NumOps`). -/
def opsC : NumOps := ⟨fun _ => 0, fun _ => 0, fun _ => 0, fun _ _ => 0, 0⟩

/-! ## The DataFrame model -/

/-- One cell of a frame; `none` models NaN / an undefined cell. -/
abbrev Cell := Option ℚ

/-- A pandas DataFrame: named columns of cells plus the `date` column held
separately (the pipeline never produces an undefined date). -/
structure Frame where
  header : List String
  dates : List ℤ
  rows : List (List Cell)

def emptyFrame : Frame := ⟨[], [], []⟩

def nrows (f : Frame) : ℕ := f.rows.length

/-- `df[c]` for a column name: the cells of column `c` (positional lookup in
the shared header).  Missing column gives `[]`; the pipeline only reads
columns it has checked for. -/
def getCol (f : Frame) (c : String) : List Cell :=
  match f.header.findIdx? (fun x => x == c) with
  | some i => f.rows.map (fun r => r.getD i none)
  | none => []

/-- `df[c] = vals`: overwrite column `c` if present, append it otherwise. -/
def setCol (f : Frame) (c : String) (vals : List Cell) : Frame :=
  match f.header.findIdx? (fun x => x == c) with
  | some i => { f with rows := List.zipWith (fun r v => r.set i v) f.rows vals }
  | none =>
      { header := f.header ++ [c], dates := f.dates,
        rows := List.zipWith (fun r v => r ++ [v]) f.rows vals }

/-- Cell of row `r` (with header `h`) in column `c`. -/
def cellAt (h : List String) (r : List Cell) (c : String) : Cell :=
  match h.findIdx? (fun x => x == c) with
  | some i => r.getD i none
  | none => none

/-- `df.dropna()`: keep exactly the rows with no undefined cell (the date is
always defined in this pipeline). -/
def dropnaF (f : Frame) : Frame :=
  let keep := (f.dates.zip f.rows).filter (fun p => p.2.all Option.isSome)
  { header := f.header, dates := keep.map Prod.fst, rows := keep.map Prod.snd }

/-! ## Cell-wise arithmetic (NaN propagates) -/

def map2 (g : ℚ → ℚ → ℚ) (a b : List Cell) : List Cell :=
  List.zipWith
    (fun x y => match x, y with
      | some u, some v => some (g u v)
      | _, _ => none) a b

/-- `Series.shift(k)`: `k` leading NaNs, the tail of the column dropped. -/
def shiftCol (k : ℕ) (v : List Cell) : List Cell :=
  List.replicate (min k v.length) (none : Cell) ++ v.take (v.length - k)

def rollMeanFn (w : ℕ) (xs : List ℚ) : ℚ := xs.sum / (w : ℚ)

/-- Sample standard deviation over a full window (pandas `rolling.std`,
`ddof = 1`). -/
def rollStdFn (ops : NumOps) (w : ℕ) (xs : List ℚ) : ℚ :=
  ops.sqrt ((xs.map (fun x => (x - xs.sum / (w : ℚ)) ^ 2)).sum / ((w : ℚ) - 1))

def rollMaxFn (xs : List ℚ) : ℚ :=
  match xs with
  | [] => 0
  | a :: t => t.foldl max a

def rollMinFn (xs : List ℚ) : ℚ :=
  match xs with
  | [] => 0
  | a :: t => t.foldl min a

/-- `Series.rolling(w).agg(stat)` with the default `min_periods = w`: cell `i`
is defined when the trailing window of length `w` exists and is fully
defined. -/
def rollCell (stat : List ℚ → ℚ) (w : ℕ) (v : List Cell) (i : ℕ) : Cell :=
  if w ≤ i + 1 then
    let window := (v.take (i + 1)).drop (i + 1 - w)
    if window.all Option.isSome then some (stat (window.map (fun c => c.getD 0)))
    else none
  else none

def rollCol (stat : List ℚ → ℚ) (w : ℕ) (v : List Cell) : List Cell :=
  (List.range v.length).map (rollCell stat w v)

/-! ## `WeatherFeatureEngineer` (src/model/train.py, lines 30-127)

Each `create_*` method is a `df = df.copy()` followed by a sequence of
column assignments on the copy.  Each method is embedded as the list of its
column assignments (`Frame → Frame`), folded left; the copy discipline is
modelled separately by the store semantics used for claim C10. -/

def applyOps (l : List (Frame → Frame)) (f : Frame) : Frame :=
  l.foldl (fun a g => g a) f

/-- `pd.to_datetime` on a day-resolution datetime column is the identity. -/
def toDatetime (z : ℤ) : ℤ := z

/-- Column assignments of `create_temporal_features`, in source order. -/
def temporalOps (ops : NumOps) : List (Frame → Frame) :=
  [fun f => { f with dates := f.dates.map toDatetime },
   fun f => setCol f "day_of_year" (f.dates.map (fun z => some ((dayOfYearOf z : ℤ) : ℚ))),
   fun f => setCol f "day_of_week" (f.dates.map (fun z => some ((dayOfWeekOf z : ℤ) : ℚ))),
   fun f => setCol f "month" (f.dates.map (fun z => some ((monthOf z : ℤ) : ℚ))),
   fun f => setCol f "quarter" (f.dates.map (fun z => some ((quarterOf z : ℤ) : ℚ))),
   fun f => setCol f "week_of_year" (f.dates.map (fun z => some ((weekOfYearOf z : ℤ) : ℚ))),
   fun f => setCol f "is_weekend"
     ((getCol f "day_of_week").map (Option.map (fun v => if v = 5 ∨ v = 6 then 1 else 0))),
   fun f => setCol f "sin_day"
     ((getCol f "day_of_year").map (Option.map (fun v => ops.sin (2 * ops.pi * v / 365)))),
   fun f => setCol f "cos_day"
     ((getCol f "day_of_year").map (Option.map (fun v => ops.cos (2 * ops.pi * v / 365)))),
   fun f => setCol f "sin_month"
     ((getCol f "month").map (Option.map (fun v => ops.sin (2 * ops.pi * v / 12)))),
   fun f => setCol f "cos_month"
     ((getCol f "month").map (Option.map (fun v => ops.cos (2 * ops.pi * v / 12)))),
   fun f => setCol f "sin_dow"
     ((getCol f "day_of_week").map (Option.map (fun v => ops.sin (2 * ops.pi * v / 7)))),
   fun f => setCol f "cos_dow"
     ((getCol f "day_of_week").map (Option.map (fun v => ops.cos (2 * ops.pi * v / 7))))]

def createTemporalFeatures (ops : NumOps) (f : Frame) : Frame :=
  applyOps (temporalOps ops) f

/-- `create_lag_features(df, cols, lags)`. -/
def lagOps (cols : List String) (lags : List ℕ) : List (Frame → Frame) :=
  cols.flatMap (fun c =>
    lags.map (fun k =>
      fun f => setCol f (c ++ "_lag_" ++ toString k) (shiftCol k (getCol f c))))

def createLagFeatures (f : Frame) (cols : List String) (lags : List ℕ) : Frame :=
  applyOps (lagOps cols lags) f

def rollWindows : List ℕ := [3, 7, 14]

/-- `create_rolling_features(df, cols)`: mean/std/max/min per window, in
source order. -/
def rollingOps (ops : NumOps) (cols : List String) : List (Frame → Frame) :=
  cols.flatMap (fun c =>
    rollWindows.flatMap (fun w =>
      [fun f => setCol f (c ++ "_roll_mean_" ++ toString w) (rollCol (rollMeanFn w) w (getCol f c)),
       fun f => setCol f (c ++ "_roll_std_" ++ toString w) (rollCol (rollStdFn ops w) w (getCol f c)),
       fun f => setCol f (c ++ "_roll_max_" ++ toString w) (rollCol rollMaxFn w (getCol f c)),
       fun f => setCol f (c ++ "_roll_min_" ++ toString w) (rollCol rollMinFn w (getCol f c))]))

def createRollingFeatures (ops : NumOps) (f : Frame) (cols : List String) : Frame :=
  applyOps (rollingOps ops cols) f

/-- The 9-term heat-index polynomial (exact source coefficients). -/
def heatIndexCell (t h : ℚ) : ℚ :=
  -8.78469475556 + 1.61139411 * t + 2.33854883889 * h - 0.14611605 * t * h -
    0.012308094 * t ^ 2 - 0.0164248277778 * h ^ 2 + 0.002211732 * t ^ 2 * h +
    0.00072546 * t * h ^ 2 - 0.000003582 * t ^ 2 * h ^ 2

def windChillCell (ops : NumOps) (t w : ℚ) : ℚ :=
  13.12 + 0.6215 * t - 11.37 * ops.rpow w 0.16 + 0.3965 * t * ops.rpow w 0.16

/-- Column assignments of `create_weather_indices`: each derived index is
computed only when its source columns are present. -/
def indicesOps (ops : NumOps) : List (Frame → Frame) :=
  [fun f =>
     if ("temp_max" ∈ f.header ∧ "humidity" ∈ f.header) then
       setCol f "heat_index" (map2 heatIndexCell (getCol f "temp_max") (getCol f "humidity"))
     else f,
   fun f =>
     if ("temp_max" ∈ f.header ∧ "temp_min" ∈ f.header) then
       let f1 := setCol f "temp_range"
         (map2 (fun a b => a - b) (getCol f "temp_max") (getCol f "temp_min"))
       setCol f1 "temp_avg"
         (map2 (fun a b => (a + b) / 2) (getCol f1 "temp_max") (getCol f1 "temp_min"))
     else f,
   fun f =>
     if ("temp_min" ∈ f.header ∧ "wind_speed" ∈ f.header) then
       setCol f "wind_chill" (map2 (windChillCell ops) (getCol f "temp_min") (getCol f "wind_speed"))
     else f]

def createWeatherIndices (ops : NumOps) (f : Frame) : Frame :=
  applyOps (indicesOps ops) f

def weatherCols : List String :=
  ["temp_max", "temp_min", "humidity", "pressure", "wind_speed", "precipitation"]

def lagList : List ℕ := [1, 2, 3, 7]

/-- The four feature-creation stages of `engineer_features` in source order:
temporal → lag (over the weather columns present after the temporal stage)
→ rolling → derived indices. -/
def engineerStages (ops : NumOps) (f : Frame) : Frame :=
  let f1 := createTemporalFeatures ops f
  let cols := weatherCols.filter (fun c => f1.header.contains c)
  createWeatherIndices ops (createRollingFeatures ops (createLagFeatures f1 cols lagList) cols)

/-- `WeatherFeatureEngineer.engineer_features`: the four stages followed by
the final `df.dropna()`. -/
def engineerFeatures (ops : NumOps) (f : Frame) : Frame :=
  dropnaF (engineerStages ops f)

/-! ## Store semantics of the pipeline (for the frame-effect claim)

`runOpsAt` runs a method's column assignments as in-place mutations of one
slot of a store of live frames; `stageH` first performs the method's
`df = df.copy()` (allocating a fresh slot) and mutates only the copy.
`engineerFeaturesH` is `engineer_features` under this semantics, returning
the store and the slot of the result. -/

def runOpsAt (s : List Frame) (j : ℕ) (l : List (Frame → Frame)) : List Frame :=
  l.foldl (fun st g => st.set j (g (st.getD j emptyFrame))) s

def stageH (s : List Frame) (i : ℕ) (l : List (Frame → Frame)) : List Frame × ℕ :=
  let j := s.length
  (runOpsAt (s ++ [s.getD i emptyFrame]) j l, j)

def engineerFeaturesH (ops : NumOps) (s : List Frame) (i : ℕ) : List Frame × ℕ :=
  let p1 := stageH s i (temporalOps ops)
  let cols := weatherCols.filter (fun c => (p1.1.getD p1.2 emptyFrame).header.contains c)
  let p2 := stageH p1.1 p1.2 (lagOps cols lagList)
  let p3 := stageH p2.1 p2.2 (rollingOps ops cols)
  let p4 := stageH p3.1 p3.2 (indicesOps ops)
  (p4.1 ++ [dropnaF (p4.1.getD p4.2 emptyFrame)], p4.1.length)

/-! ## Weather records and input frames -/

/-- A raw daily observation (spec section 3; the columns produced by
`generate_synthetic_training_data` and consumed by training). -/
structure WeatherRecord where
  date : ℤ
  temp_max : ℚ
  temp_min : ℚ
  humidity : ℚ
  pressure : ℚ
  wind_speed : ℚ
  precipitation : ℚ
  cloud_cover : ℚ
  latitude : ℚ
  longitude : ℚ

def recordHeader : List String :=
  ["temp_max", "temp_min", "humidity", "pressure", "wind_speed",
   "precipitation", "cloud_cover", "latitude", "longitude"]

def recordCells (r : WeatherRecord) : List Cell :=
  [some r.temp_max, some r.temp_min, some r.humidity, some r.pressure,
   some r.wind_speed, some r.precipitation, some r.cloud_cover,
   some r.latitude, some r.longitude]

def recordsToFrame (rs : List WeatherRecord) : Frame :=
  { header := recordHeader,
    dates := rs.map WeatherRecord.date,
    rows := rs.map recordCells }

/-! ## `WeatherMLModel.train` (src/model/train.py, lines 239-333) -/

def targetColumns : List String :=
  ["temp_max", "temp_min", "precipitation", "humidity", "wind_speed"]

/-- `train_test_split(X, y, test_size=0.2, shuffle=False)` on `n` rows:
the test slice is the last `ceil(0.2 * n)` rows (for every such `n` the
float expression `ceil(n * 0.2)` equals the exact `⌈n / 5⌉` computed here),
and sklearn raises a `ValueError` when either slice would be empty. -/
def trainTestSplitCheck (n : ℕ) : Except String (ℕ × ℕ) :=
  let nTest := (n + 4) / 5
  let nTrain := n - nTest
  if nTrain = 0 ∨ nTest = 0 then
    .error "train_test_split: resulting train or test set is empty"
  else .ok (nTrain, nTest)

/-- The chronological 80/20 split of `train` (`shuffle=False`): train slice
is the row prefix, holdout slice the row suffix. -/
def trainTestSplitNoShuffle (xs : List α) : List α × List α :=
  let nTest := (xs.length + 4) / 5
  let nTrain := xs.length - nTest
  (xs.take nTrain, xs.drop nTrain)

/-- `VotingRegressor(estimators=[('xgb',...), ('lgb',...), ('rf',...)],
weights=[0.4, 0.4, 0.2])`: the three sub-model families. -/
def ensembleEstimators : List String := ["xgb", "lgb", "rf"]

def ensembleWeights : List ℚ := [0.4, 0.4, 0.2]

/-- `VotingRegressor.predict` on one feature row: `np.average` of the
sub-model outputs, i.e. the weighted sum divided by the weight total. -/
def ensemblePredict (subs : List (List ℚ → ℚ)) (x : List ℚ) : ℚ :=
  (List.zipWith (fun w m => w * m x) ensembleWeights subs).sum / ensembleWeights.sum

/-- Per-target body of the training loop, reduced to its only data-dependent
control path: `prepare_features` engineers the frame (the engineered row
count is the same for every target) and `train_test_split` either raises or
yields the slice sizes; fitting, metric computation and artifact persistence
always succeed on non-empty slices and are abstracted as success. -/
def splitChecksFor (n : ℕ) : List String → Except String (List (ℕ × ℕ))
  | [] => .ok []
  | _ :: ts =>
    match trainTestSplitCheck n with
    | .error e => .error e
    | .ok v =>
      match splitChecksFor n ts with
      | .error e => .error e
      | .ok l => .ok (v :: l)

/-- `WeatherMLModel.train` over an input frame: the per-target loop either
raises out of the whole run (first splitter failure) or proceeds to fit and
persist, returning the per-target (train, test) slice sizes. -/
def weatherTrainRun (ops : NumOps) (rs : List WeatherRecord) : Except String (List (ℕ × ℕ)) :=
  splitChecksFor (engineerFeatures ops (recordsToFrame rs)).rows.length targetColumns

/-! ## `WeatherMLModel.predict` (src/model/train.py, lines 335-376) -/

/-- The `features` dict passed to `predict`: a single seed record.  `date`
is optional because the code falls back to `datetime.now()` when absent. -/
structure Seed where
  date : Option ℤ
  cells : List (String × ℚ)

inductive PredictErr where
  /-- `raise ValueError("Model not trained. Call train() first.")` -/
  | modelNotTrained : PredictErr
  /-- The per-target `self.models[target].predict(X_padded)[0]` invoked on a
  zero-row `X_padded` (sklearn rejects empty input / indexing an empty
  prediction array fails). -/
  | emptyInput : PredictErr
deriving DecidableEq

structure DayForecast where
  date : ℤ
  values : List (String × ℚ)
deriving DecidableEq

/-- `pd.DataFrame([features])` followed by
`current_data['date'] = pd.to_datetime(current_data.get('date', datetime.now()))`. -/
def seedFrame (seed : Seed) (now : ℤ) : Frame :=
  { header := seed.cells.map Prod.fst,
    dates := [toDatetime (seed.date.getD now)],
    rows := [seed.cells.map (fun p => some p.2)] }

def lookupQ (l : List (String × ℚ)) (c : String) : Option ℚ :=
  (l.find? (fun p => p.1 == c)).map Prod.snd

def lookupCell (l : List (String × Cell)) (c : String) : Cell :=
  match l.find? (fun p => p.1 == c) with
  | some p => p.2
  | none => none

/-- `X_padded`: a one-row frame over the frozen training columns, zero for
columns absent from the engineered row. -/
def padRow (fcols : List String) (xp : List (String × ℚ)) : List ℚ :=
  fcols.map (fun c => (lookupQ xp c).getD 0)

/-- Python `round(x, 2)` (round-half-to-even on the scaled value). -/
def roundHalfEven (x : ℚ) : ℤ :=
  let n := x.floor
  if x - n < 1 / 2 then n
  else if 1 / 2 < x - n then n + 1
  else if n % 2 = 0 then n else n + 1

def roundTo2 (x : ℚ) : ℚ := (roundHalfEven (x * 100) : ℚ) / 100

/-- The inner loop `for target in self.target_columns: if target in
self.models: ...`: targets without a model are skipped; a target with a
model evaluated against an empty engineered history raises. -/
def dayValues (models : List (String × (List ℚ → ℚ))) (fcols : List String)
    (xpred : Option (List (String × ℚ))) : List String → Except PredictErr (List (String × ℚ))
  | [] => .ok []
  | t :: ts =>
    match models.find? (fun p => p.1 == t) with
    | none => dayValues models fcols xpred ts
    | some m =>
      match xpred with
      | none => .error .emptyInput
      | some xp =>
        match dayValues models fcols xpred ts with
        | .error e => .error e
        | .ok rest => .ok ((t, roundTo2 (m.2 (padRow fcols xp))) :: rest)

def setItemCell (l : List (String × Cell)) (k : String) (v : Cell) : List (String × Cell) :=
  if l.any (fun p => p.1 == k) then l.map (fun p => if p.1 == k then (p.1, v) else p)
  else l ++ [(k, v)]

/-- `pd.concat([current_data, pd.DataFrame([new_row])], ignore_index=True)`:
columns new to the frame are appended and back-filled with NaN in old rows. -/
def concatRow (f : Frame) (date : ℤ) (cells : List (String × Cell)) : Frame :=
  let newCols := (cells.map Prod.fst).filter (fun c => !(f.header.contains c))
  { header := f.header ++ newCols,
    dates := f.dates ++ [date],
    rows := f.rows.map (fun r => r ++ List.replicate newCols.length (none : Cell)) ++
      [(f.header ++ newCols).map (fun c => lookupCell cells c)] }

/-- One `for day in range(forecast_days)` iteration, recursing on the
remaining horizon with the accumulated history and forecasts. -/
def goPredict (ops : NumOps) (models : List (String × (List ℚ → ℚ))) (fcols : List String) :
    ℕ → Frame → List DayForecast → Except PredictErr (List DayForecast)
  | 0, _, acc => .ok acc
  | n + 1, cur, acc =>
    let fdate := cur.dates.getLastD 0 + 1
    let curCopy : Frame := { cur with dates := List.replicate cur.dates.length fdate }
    let dfF := engineerFeatures ops curCopy
    let avail := fcols.filter (fun c => dfF.header.contains c)
    let xpred := dfF.rows.getLast?.map (fun r => avail.map (fun c => (c, (cellAt dfF.header r c).getD 0)))
    match dayValues models fcols xpred targetColumns with
    | .error e => .error e
    | .ok vals =>
      let dayF : DayForecast := { date := fdate, values := vals }
      let baseCells := cur.header.zip (cur.rows.getLastD [])
      let newCells := vals.foldl (fun acc2 p => setItemCell acc2 p.1 (some p.2)) baseCells
      goPredict ops models fcols n (concatRow cur fdate newCells) (acc ++ [dayF])

/-- `WeatherMLModel.predict(features, forecast_days)`. -/
def predictE (ops : NumOps) (models : List (String × (List ℚ → ℚ))) (fcols : List String)
    (seed : Seed) (days : ℕ) (now : ℤ) : Except PredictErr (List DayForecast) :=
  if models.isEmpty then .error .modelNotTrained
  else goPredict ops models fcols days (seedFrame seed now) []

/-- The attributes of a `WeatherMLModel` that `predict` reads
(`self.models`, `self.feature_columns`; `self.target_columns` is the fixed
`targetColumns`).  `predict` assigns no attribute, so its state-passing
translation returns the state it was given. -/
structure WeatherModelState where
  models : List (String × (List ℚ → ℚ))
  feature_columns : List String

def predictS (ops : NumOps) (st : WeatherModelState) (seed : Seed) (days : ℕ) (now : ℤ) :
    Except PredictErr (List DayForecast) × WeatherModelState :=
  (predictE ops st.models st.feature_columns seed days now, st)

/-! ## `ModelRegistry` (src/app/services/model_registry.py) -/

structure RegistryState where
  current_model : Option (Seed → ℕ → List DayForecast)
  model_version : Option String
  loaded_at : Option ℤ

/-- `ModelRegistry.__init__`. -/
def registryInit : RegistryState := ⟨none, none, none⟩

/-- `ModelRegistry.load_latest_model`: the body assigns a hard-coded version
string and a timestamp; no artifact is fetched (the registry connection is
commented out), nothing can fail, and any exception would only be logged. -/
def loadLatestModel (st : RegistryState) (now : ℤ) : RegistryState :=
  { st with model_version := some "1.0.0-ensemble", loaded_at := some now }

/-- `ModelRegistry.predict`. -/
def registryPredict (st : RegistryState) (features : Seed) (days : ℕ) :
    Except String (List DayForecast) :=
  match st.current_model with
  | none => .error "No model loaded"
  | some m => .ok (m features days)

/-- The `is_loaded` property: `return True  # Simplified for demo`. -/
def registryIsLoaded (_ : RegistryState) : Bool := true

/-! ## Validation gate (src/scripts/validate_model.py) -/

def defaultMinR2 : ℚ := 0.85

def defaultMaxRmse : ℚ := 3.0

/-- `passed = avg_r2 >= min_r2 and avg_rmse <= max_rmse`. -/
def validationPassed (avg_r2 avg_rmse min_r2 max_rmse : ℚ) : Bool :=
  decide (min_r2 ≤ avg_r2 ∧ avg_rmse ≤ max_rmse)

/-- `sys.exit(0 if success else 1)` in `main`. -/
def validationExitCode (passed : Bool) : ℕ := if passed then 0 else 1

/-! ## Concrete inputs used by counterexamples and witnesses -/

/-- 15 consecutive fully-defined records starting 2024-01-01 (day 19723),
the spec's minimum survivable input length. -/
def recs15 : List WeatherRecord :=
  (List.range 15).map (fun i =>
    { date := 19723 + i, temp_max := 10, temp_min := 2, humidity := 70,
      pressure := 1015, wind_speed := 12, precipitation := 1,
      cloud_cover := 40, latitude := 40, longitude := -74 })

/-- The spec's end-to-end seed record (2024-01-01 = day 19723). -/
def seedSpec : Seed :=
  { date := some 19723,
    cells := [("temp_max", 10), ("temp_min", 2), ("humidity", 70), ("pressure", 1015),
              ("wind_speed", 12), ("cloud_cover", 40), ("precipitation", 1)] }

/-- A seed whose dict carries only a date (no weather columns). -/
def seedSparse : Seed := { date := some 100, cells := [] }

/-- A fully trained artifact: one (stub) fitted ensemble per target. -/
def modelsFull : List (String × (List ℚ → ℚ)) :=
  targetColumns.map (fun t => (t, fun _ => 5))

/-- An artifact holding an ensemble for `temp_max` only. -/
def models1 : List (String × (List ℚ → ℚ)) := [("temp_max", fun _ => 5)]

/-- A plausible frozen feature-column list for the stub artifacts. -/
def fcolsDemo : List String := ["day_of_year", "temp_max_lag_1"]

/-- Frozen feature columns for the partial-artifact scenario. -/
def fcolsC6 : List String := ["day_of_year"]

def storeW : List Frame := [recordsToFrame recs15]

/-! ## Frame invariants of the pipeline stages -/

theorem applyOps_cons (g : Frame → Frame) (t : List (Frame → Frame)) (f : Frame) :
    applyOps (g :: t) f = applyOps t (g f) := rfl

theorem nrows_setCol_le (f : Frame) (c : String) (v : List Cell) :
    nrows (setCol f c v) ≤ nrows f := by
  cases h : f.header.findIdx? (fun x => x == c) <;>
    simp [setCol, h, nrows, List.length_zipWith]

theorem dates_setCol (f : Frame) (c : String) (v : List Cell) :
    (setCol f c v).dates = f.dates := by
  cases h : f.header.findIdx? (fun x => x == c) <;> simp [setCol, h]

theorem dates_applyOps (l : List (Frame → Frame))
    (h : ∀ g ∈ l, ∀ f, (g f).dates = f.dates) :
    ∀ f, (applyOps l f).dates = f.dates := by
  induction l with
  | nil => intro f; rfl
  | cons g t ih =>
    intro f
    rw [applyOps_cons, ih (fun g2 hg2 => h g2 (List.mem_cons_of_mem _ hg2)),
      h g (List.mem_cons_self _ _)]

theorem nrows_applyOps_le (l : List (Frame → Frame))
    (h : ∀ g ∈ l, ∀ f, nrows (g f) ≤ nrows f) :
    ∀ f, nrows (applyOps l f) ≤ nrows f := by
  induction l with
  | nil => intro f; exact le_refl _
  | cons g t ih =>
    intro f
    rw [applyOps_cons]
    exact le_trans (ih (fun g2 hg2 => h g2 (List.mem_cons_of_mem _ hg2)) (g f))
      (h g (List.mem_cons_self _ _) f)

theorem temporalOps_good (ops : NumOps) :
    ∀ g ∈ temporalOps ops, ∀ f, (g f).dates = f.dates ∧ nrows (g f) ≤ nrows f := by
  intro g hg f
  simp only [temporalOps, List.mem_cons, List.not_mem_nil, or_false] at hg
  rcases hg with rfl | rfl | rfl | rfl | rfl | rfl | rfl | rfl | rfl | rfl | rfl | rfl | rfl
  · exact ⟨by rw [show toDatetime = id from rfl]; exact List.map_id _, le_refl _⟩
  all_goals exact ⟨dates_setCol _ _ _, nrows_setCol_le _ _ _⟩

theorem lagOps_good (cols : List String) (lags : List ℕ) :
    ∀ g ∈ lagOps cols lags, ∀ f, (g f).dates = f.dates ∧ nrows (g f) ≤ nrows f := by
  intro g hg f
  simp only [lagOps, List.mem_flatMap, List.mem_map] at hg
  obtain ⟨c, _, k, _, rfl⟩ := hg
  exact ⟨dates_setCol _ _ _, nrows_setCol_le _ _ _⟩

theorem rollingOps_good (ops : NumOps) (cols : List String) :
    ∀ g ∈ rollingOps ops cols, ∀ f, (g f).dates = f.dates ∧ nrows (g f) ≤ nrows f := by
  intro g hg f
  simp only [rollingOps, List.mem_flatMap, List.mem_cons, List.not_mem_nil, or_false] at hg
  obtain ⟨c, _, w, _, hg⟩ := hg
  rcases hg with rfl | rfl | rfl | rfl <;>
    exact ⟨dates_setCol _ _ _, nrows_setCol_le _ _ _⟩

theorem indicesOps_good (ops : NumOps) :
    ∀ g ∈ indicesOps ops, ∀ f, (g f).dates = f.dates ∧ nrows (g f) ≤ nrows f := by
  intro g hg f
  simp only [indicesOps, List.mem_cons, List.not_mem_nil, or_false] at hg
  rcases hg with rfl | rfl | rfl
  · by_cases h : ("temp_max" ∈ f.header ∧ "humidity" ∈ f.header)
    · simp only [if_pos h]
      exact ⟨dates_setCol _ _ _, nrows_setCol_le _ _ _⟩
    · simp [if_neg h]
  · by_cases h : ("temp_max" ∈ f.header ∧ "temp_min" ∈ f.header)
    · simp only [if_pos h]
      refine ⟨?_, ?_⟩
      · rw [dates_setCol, dates_setCol]
      · exact le_trans (nrows_setCol_le _ _ _) (nrows_setCol_le _ _ _)
    · simp [if_neg h]
  · by_cases h : ("temp_min" ∈ f.header ∧ "wind_speed" ∈ f.header)
    · simp only [if_pos h]
      exact ⟨dates_setCol _ _ _, nrows_setCol_le _ _ _⟩
    · simp [if_neg h]

theorem dropnaF_rows_defined (f : Frame) :
    ∀ r ∈ (dropnaF f).rows, ∀ c ∈ r, c.isSome = true := by
  intro r hr
  simp only [dropnaF, List.mem_map] at hr
  obtain ⟨p, hp, rfl⟩ := hr
  exact fun c hc => List.all_eq_true.mp (List.mem_filter.mp hp).2 c hc

theorem nrows_dropnaF_le (f : Frame) : nrows (dropnaF f) ≤ nrows f := by
  simp only [dropnaF, nrows, List.length_map]
  exact le_trans (List.filter_sublist _).length_le (by rw [List.length_zip]; exact inf_le_right)

theorem map_fst_zip_sublist (a : List α) (b : List β) :
    ((a.zip b).map Prod.fst).Sublist a := by
  induction a generalizing b with
  | nil => simp
  | cons x t ih =>
    cases b with
    | nil => simp
    | cons y s => simpa using (ih s).cons₂ x

theorem dates_dropnaF_sublist (f : Frame) : (dropnaF f).dates.Sublist f.dates := by
  simp only [dropnaF]
  exact ((List.filter_sublist _).map Prod.fst).trans (map_fst_zip_sublist _ _)

theorem dates_createTemporalFeatures (ops : NumOps) (f : Frame) :
    (createTemporalFeatures ops f).dates = f.dates :=
  dates_applyOps _ (fun g hg f2 => (temporalOps_good ops g hg f2).1) f

theorem dates_createLagFeatures (f : Frame) (cols : List String) (lags : List ℕ) :
    (createLagFeatures f cols lags).dates = f.dates :=
  dates_applyOps _ (fun g hg f2 => (lagOps_good cols lags g hg f2).1) f

theorem dates_createRollingFeatures (ops : NumOps) (f : Frame) (cols : List String) :
    (createRollingFeatures ops f cols).dates = f.dates :=
  dates_applyOps _ (fun g hg f2 => (rollingOps_good ops cols g hg f2).1) f

theorem dates_createWeatherIndices (ops : NumOps) (f : Frame) :
    (createWeatherIndices ops f).dates = f.dates :=
  dates_applyOps _ (fun g hg f2 => (indicesOps_good ops g hg f2).1) f

theorem dates_engineerStages (ops : NumOps) (f : Frame) :
    (engineerStages ops f).dates = f.dates := by
  simp only [engineerStages]
  rw [dates_createWeatherIndices, dates_createRollingFeatures, dates_createLagFeatures,
    dates_createTemporalFeatures]

theorem nrows_engineerStages_le (ops : NumOps) (f : Frame) :
    nrows (engineerStages ops f) ≤ nrows f := by
  simp only [engineerStages]
  exact le_trans (nrows_applyOps_le _ (fun g hg f2 => (indicesOps_good ops g hg f2).2) _)
    (le_trans (nrows_applyOps_le _ (fun g hg f2 => (rollingOps_good ops _ g hg f2).2) _)
      (le_trans (nrows_applyOps_le _ (fun g hg f2 => (lagOps_good _ _ g hg f2).2) _)
        (nrows_applyOps_le _ (fun g hg f2 => (temporalOps_good ops g hg f2).2) _)))

theorem dates_engineer_sublist (ops : NumOps) (f : Frame) :
    (engineerFeatures ops f).dates.Sublist f.dates := by
  have h := dates_dropnaF_sublist (engineerStages ops f)
  rw [dates_engineerStages] at h
  exact h

/-! ## Store-semantics lemmas -/

theorem set_append_last (s : List α) (a b : α) :
    (s ++ [a]).set s.length b = s ++ [b] := by
  induction s with
  | nil => rfl
  | cons x t ih => simp [List.set, ih]

theorem getD_append_last (s : List α) (a d : α) :
    (s ++ [a]).getD s.length d = a := by
  simp [List.getD, List.getElem?_append_right (le_refl s.length)]

theorem runOpsAt_append (l : List (Frame → Frame)) (s : List Frame) (f0 : Frame) :
    runOpsAt (s ++ [f0]) s.length l = s ++ [applyOps l f0] := by
  induction l generalizing f0 with
  | nil => rfl
  | cons g t ih =>
    show runOpsAt ((s ++ [f0]).set s.length (g ((s ++ [f0]).getD s.length emptyFrame)))
      s.length t = s ++ [applyOps (g :: t) f0]
    rw [getD_append_last, set_append_last, ih, applyOps_cons]

theorem stageH_eq (s : List Frame) (i : ℕ) (l : List (Frame → Frame)) :
    stageH s i l = (s ++ [applyOps l (s.getD i emptyFrame)], s.length) := by
  simp only [stageH]
  rw [runOpsAt_append]

/-! ## Predict-loop lemmas -/

theorem seedFrame_of_some (seed : Seed) (now now2 : ℤ) (d : ℤ) (h : seed.date = some d) :
    seedFrame seed now = seedFrame seed now2 := by
  simp [seedFrame, h]

theorem dayValues_keys (models : List (String × (List ℚ → ℚ))) (fcols : List String)
    (xpred : Option (List (String × ℚ))) :
    ∀ ts vs, dayValues models fcols xpred ts = .ok vs →
      vs.map Prod.fst = ts.filter (fun t => (models.find? (fun p => p.1 == t)).isSome) := by
  intro ts
  induction ts with
  | nil =>
    intro vs h
    simp only [dayValues, Except.ok.injEq] at h
    subst h
    rfl
  | cons t ts ih =>
    intro vs h
    simp only [dayValues] at h
    cases hf : models.find? (fun p => p.1 == t) with
    | none =>
      rw [hf] at h
      rw [ih vs h, List.filter_cons, if_neg (by simp [hf])]
    | some m =>
      rw [hf] at h
      cases xpred with
      | none => simp at h
      | some xp =>
        cases hr : dayValues models fcols (some xp) ts with
        | error e => rw [hr] at h; simp at h
        | ok rest =>
          rw [hr] at h
          simp only [Except.ok.injEq] at h
          subst h
          rw [List.filter_cons, if_pos (by simp [hf])]
          simp [ih rest hr]

theorem goPredict_keys (ops : NumOps) (models : List (String × (List ℚ → ℚ)))
    (fcols : List String) :
    ∀ (n : ℕ) (cur : Frame) (acc l : List DayForecast),
      (∀ df ∈ acc, df.values.map Prod.fst =
        targetColumns.filter (fun t => (models.find? (fun p => p.1 == t)).isSome)) →
      goPredict ops models fcols n cur acc = .ok l →
      ∀ df ∈ l, df.values.map Prod.fst =
        targetColumns.filter (fun t => (models.find? (fun p => p.1 == t)).isSome) := by
  intro n
  induction n with
  | zero =>
    intro cur acc l hacc h
    simp only [goPredict, Except.ok.injEq] at h
    subst h
    exact hacc
  | succ n ih =>
    intro cur acc l hacc h
    simp only [goPredict] at h
    split at h
    · exact absurd h (by simp)
    · refine ih _ _ _ ?_ h
      intro df hdf
      rcases List.mem_append.mp hdf with hold | hnew
      · exact hacc df hold
      · rw [List.mem_singleton.mp hnew]
        next vals heq => exact dayValues_keys models fcols _ targetColumns vals heq

theorem splitChecksFor_isOk (n : ℕ) :
    (splitChecksFor n targetColumns).isOk = true ↔ 2 ≤ n := by
  rcases n with _ | _ | m
  · simp [splitChecksFor, targetColumns, trainTestSplitCheck, Except.isOk, Except.toBool]
  · simp [splitChecksFor, targetColumns, trainTestSplitCheck, Except.isOk, Except.toBool]
  · have hcheck : trainTestSplitCheck (m + 2) =
        .ok (m + 2 - (m + 2 + 4) / 5, (m + 2 + 4) / 5) := by
      simp only [trainTestSplitCheck]
      rw [if_neg (by omega)]
    simp [splitChecksFor, targetColumns, hcheck, Except.isOk, Except.toBool]

/-! ## The claims -/

set_option maxRecDepth 40000

/-- C1: the claim states that `predict(seed, N)` on a trained model returns
exactly `N` per-day entries with strictly ascending dates starting the day
after the seed's date.  The code cannot do this for a seed record: on the
very first recursive day the accumulated history is a single row, every
lag/rolling feature of it is NaN, `engineer_features`'s final `dropna()`
therefore deletes every row, and the per-target
`self.models[target].predict(X_padded)[0]` is invoked on a zero-row input
and raises instead of producing a forecast entry.  This theorem evaluates
the embedded `predict` at the spec's own end-to-end seed (all weather
fields present, horizon 3) and shows the run aborts with that error. -/
theorem c1_predict_crashes_on_single_seed :
    predictE opsC modelsFull fcolsDemo seedSpec 3 0 = .error .emptyInput := rfl

/-- C2: for every `NumOps` interpretation and every input sequence of at
least 15 records with strictly ascending (hence unique) dates,
`engineer_features` returns a frame with no undefined cell and at most as
many rows as the input. -/
theorem c2_engineered_frame_defined_and_bounded (ops : NumOps) (rs : List WeatherRecord)
    (_h15 : 15 ≤ rs.length)
    (_hasc : List.Pairwise (· < ·) (rs.map WeatherRecord.date)) :
    (∀ r ∈ (engineerFeatures ops (recordsToFrame rs)).rows, ∀ c ∈ r, c.isSome = true) ∧
    (engineerFeatures ops (recordsToFrame rs)).rows.length ≤ rs.length := by
  constructor
  · exact dropnaF_rows_defined (engineerStages ops (recordsToFrame rs))
  · have h1 : nrows (dropnaF (engineerStages ops (recordsToFrame rs))) ≤
        nrows (engineerStages ops (recordsToFrame rs)) :=
      nrows_dropnaF_le _
    have h2 := nrows_engineerStages_le ops (recordsToFrame rs)
    have h3 : nrows (recordsToFrame rs) = rs.length := by
      simp [recordsToFrame, nrows]
    calc (engineerFeatures ops (recordsToFrame rs)).rows.length
        ≤ nrows (engineerStages ops (recordsToFrame rs)) := h1
      _ ≤ nrows (recordsToFrame rs) := h2
      _ = rs.length := h3

theorem c2_witness :
    15 ≤ recs15.length ∧
    List.Pairwise (· < ·) (recs15.map WeatherRecord.date) ∧
    ((∀ r ∈ (engineerFeatures opsC (recordsToFrame recs15)).rows, ∀ c ∈ r, c.isSome = true) ∧
      (engineerFeatures opsC (recordsToFrame recs15)).rows.length ≤ recs15.length) :=
  ⟨by decide, by decide,
    c2_engineered_frame_defined_and_bounded opsC recs15 (by decide) (by decide)⟩

/-- C3: for every training input with strictly ascending dates, the
chronological 80/20 split (`shuffle=False`) of the engineered frame puts
every holdout-row date strictly after every training-row date. -/
theorem c3_chronological_split_no_leakage (ops : NumOps) (rs : List WeatherRecord)
    (hasc : List.Pairwise (· < ·) (rs.map WeatherRecord.date)) :
    ∀ d1 ∈ (trainTestSplitNoShuffle (engineerFeatures ops (recordsToFrame rs)).dates).1,
    ∀ d2 ∈ (trainTestSplitNoShuffle (engineerFeatures ops (recordsToFrame rs)).dates).2,
    d1 < d2 := by
  have hsub : (engineerFeatures ops (recordsToFrame rs)).dates.Sublist
      (rs.map WeatherRecord.date) := dates_engineer_sublist ops (recordsToFrame rs)
  have hp := List.Pairwise.sublist hsub hasc
  intro d1 h1 d2 h2
  simp only [trainTestSplitNoShuffle] at h1 h2
  have hsplit := List.pairwise_append.mp
    (by rw [List.take_append_drop]; exact hp :
      List.Pairwise (· < ·)
        (((engineerFeatures ops (recordsToFrame rs)).dates.take
            ((engineerFeatures ops (recordsToFrame rs)).dates.length -
              ((engineerFeatures ops (recordsToFrame rs)).dates.length + 4) / 5)) ++
          ((engineerFeatures ops (recordsToFrame rs)).dates.drop
            ((engineerFeatures ops (recordsToFrame rs)).dates.length -
              ((engineerFeatures ops (recordsToFrame rs)).dates.length + 4) / 5))))
  exact hsplit.2.2 d1 h1 d2 h2

theorem c3_witness :
    List.Pairwise (· < ·) (recs15.map WeatherRecord.date) ∧
    (∀ d1 ∈ (trainTestSplitNoShuffle (engineerFeatures opsC (recordsToFrame recs15)).dates).1,
     ∀ d2 ∈ (trainTestSplitNoShuffle (engineerFeatures opsC (recordsToFrame recs15)).dates).2,
     d1 < d2) :=
  ⟨by decide, c3_chronological_split_no_leakage opsC recs15 (by decide)⟩

/-- C4: the ensemble combines exactly three sub-models with fixed weights
0.4/0.4/0.2 summing to 1, and its prediction is their weighted average: on
stub sub-models returning 1, 2 and 3 it returns exactly 1.8 for every
input. -/
theorem c4_ensemble_weighted_average :
    ensembleEstimators.length = 3 ∧ ensembleWeights.length = 3 ∧
    ensembleWeights.sum = 1 ∧
    ∀ x, ensemblePredict [fun _ => 1, fun _ => 2, fun _ => 3] x = 1.8 := by
  refine ⟨rfl, rfl, by norm_num [ensembleWeights], fun x => ?_⟩
  norm_num [ensemblePredict, ensembleWeights]

/-- C5: the claim states that `train` fails with an `InsufficientData`
condition whenever too few rows survive the lookback, and never silently
fits a degenerate model.  The code has no such check: at this concrete
15-record input only 2 engineered rows survive the 14-day lookback, the
chronological split leaves a single training row and a single holdout row,
and the run proceeds to fit and persist all five per-target ensembles
without any error. -/
theorem c5_counterexample_train_proceeds_degenerate :
    recs15.length = 15 ∧
    (engineerFeatures opsC (recordsToFrame recs15)).rows.length = 2 ∧
    weatherTrainRun opsC recs15 = .ok [(1, 1), (1, 1), (1, 1), (1, 1), (1, 1)] :=
  ⟨rfl, rfl, rfl⟩

/-- C5 (amended): `train` performs no explicit insufficient-data check; a
run fails (with the splitter's generic `ValueError`, not a dedicated
`InsufficientData` condition) exactly when fewer than 2 rows survive
feature engineering, and otherwise proceeds to fit and persist — even when
the training slice is a single row. -/
theorem c5_train_fails_iff_lt_two_rows (ops : NumOps) (rs : List WeatherRecord) :
    (weatherTrainRun ops rs).isOk = true ↔
      2 ≤ (engineerFeatures ops (recordsToFrame rs)).rows.length := by
  unfold weatherTrainRun
  exact splitChecksFor_isOk _

/-- C6: counterexample to the claim that forecasting against an artifact
lacking a trained ensemble for a requested target fails with
`ModelNotTrained`: `models1` holds an ensemble for `temp_max` only, yet
`predict` succeeds and simply returns entries that omit the other four
requested targets (here on a date-only seed so the recursive loop can
complete). -/
theorem c6_counterexample_missing_target_silently_omitted :
    models1.map Prod.fst = ["temp_max"] ∧
    "humidity" ∈ targetColumns ∧
    predictE opsC models1 fcolsC6 seedSparse 1 0 =
      .ok [⟨101, [("temp_max", roundTo2 5)]⟩] :=
  ⟨rfl, by decide, rfl⟩

/-- C6 (amended): `predict` raises its model-not-trained error only when the
artifact contains no ensemble at all (`if not self.models`); when some
targets lack an ensemble, the per-day loop silently skips them, so every
returned entry carries exactly the targets that do have an ensemble. -/
theorem c6_model_not_trained_only_when_empty (ops : NumOps)
    (models : List (String × (List ℚ → ℚ))) (fcols : List String) (seed : Seed)
    (days : ℕ) (now : ℤ) :
    (models = [] → predictE ops models fcols seed days now = .error .modelNotTrained) ∧
    (∀ l, predictE ops models fcols seed days now = .ok l →
      ∀ df ∈ l, df.values.map Prod.fst =
        targetColumns.filter (fun t => (models.find? (fun p => p.1 == t)).isSome)) := by
  constructor
  · rintro rfl
    rfl
  · intro l hl df hdf
    unfold predictE at hl
    split at hl
    · exact absurd hl (by simp)
    · exact goPredict_keys ops models fcols days (seedFrame seed now) [] l
        (by intro df2 hdf2; exact absurd hdf2 (List.not_mem_nil df2)) hl df hdf

theorem c6_witness :
    predictE opsC models1 fcolsC6 seedSparse 1 0 = .ok [⟨101, [("temp_max", roundTo2 5)]⟩] ∧
    ∀ df ∈ [({ date := 101, values := [("temp_max", roundTo2 5)] } : DayForecast)],
      df.values.map Prod.fst =
        targetColumns.filter (fun t => (models1.find? (fun p => p.1 == t)).isSome) :=
  ⟨rfl, (c6_model_not_trained_only_when_empty opsC models1 fcolsC6 seedSparse 1 0).2 _ rfl⟩

/-- C7: counterexample to the claim that `load_latest` returns the artifact
occupying the stage and fails with a not-found condition when none does:
on a fresh registry (no entry in any stage) `load_latest_model` still
reports success — it sets the version string and `is_loaded` is true —
while nothing was loaded (`current_model` is still `None`), and a
subsequent `predict` fails with "No model loaded". -/
theorem c7_counterexample_load_reports_success_without_loading :
    (loadLatestModel registryInit 0).model_version = some "1.0.0-ensemble" ∧
    (loadLatestModel registryInit 0).current_model = none ∧
    registryIsLoaded (loadLatestModel registryInit 0) = true ∧
    registryPredict (loadLatestModel registryInit 0) seedSparse 7 = .error "No model loaded" :=
  ⟨rfl, rfl, rfl, rfl⟩

/-- C7 (amended): `load_latest_model` takes no stage argument and cannot
fail: it unconditionally sets `model_version` to `"1.0.0-ensemble"` and a
load timestamp while leaving `current_model` untouched, `is_loaded` always
reports true, and when no model object is present a later `predict` on the
registry fails with "No model loaded". -/
theorem c7_load_latest_never_fails (st : RegistryState) (now : ℤ) (seed : Seed) (days : ℕ) :
    (loadLatestModel st now).model_version = some "1.0.0-ensemble" ∧
    (loadLatestModel st now).current_model = st.current_model ∧
    registryIsLoaded st = true ∧
    (st.current_model = none →
      registryPredict (loadLatestModel st now) seed days = .error "No model loaded") := by
  refine ⟨rfl, rfl, rfl, fun h => ?_⟩
  simp [registryPredict, loadLatestModel, h]

theorem c7_witness :
    registryInit.current_model = none ∧
    registryPredict (loadLatestModel registryInit 0) seedSparse 7 = .error "No model loaded" :=
  ⟨rfl, (c7_load_latest_never_fails registryInit 0 seedSparse 7).2.2.2 rfl⟩

/-- C8: the validation gate passes exactly when `avg_r2 ≥ min_r2` and
`avg_rmse ≤ max_rmse`, the process exit code is 0 exactly when it passed,
and against the default thresholds (0.85, 3.0) the metric pair (0.90, 2.0)
passes while (0.80, 2.0) fails. -/
theorem c8_validation_gate :
    (∀ avg_r2 avg_rmse min_r2 max_rmse : ℚ,
      validationPassed avg_r2 avg_rmse min_r2 max_rmse = true ↔
        (min_r2 ≤ avg_r2 ∧ avg_rmse ≤ max_rmse)) ∧
    (∀ b, validationExitCode b = 0 ↔ b = true) ∧
    validationPassed 0.9 2 defaultMinR2 defaultMaxRmse = true ∧
    validationPassed 0.8 2 defaultMinR2 defaultMaxRmse = false := by
  refine ⟨fun r2 rmse a b => by simp [validationPassed],
    fun b => by cases b <;> simp [validationExitCode], ?_, ?_⟩
  · simp only [validationPassed, defaultMinR2, defaultMaxRmse, decide_eq_true_eq]
    norm_num
  · simp only [validationPassed, defaultMinR2, defaultMaxRmse]
    rw [decide_eq_false_iff_not]
    intro hc
    exact absurd hc.1 (by norm_num)

/-- C9: `predict` carries no mutable state between invocations and has no
inference-time nondeterminism: the state-passing translation returns its
state unchanged, the result does not depend on the invocation time `now`
once the seed carries a date, and a repeated invocation from the post-call
state returns the identical output. -/
theorem c9_predict_deterministic_stateless (ops : NumOps) (st : WeatherModelState)
    (seed : Seed) (days : ℕ) (now now2 : ℤ) (d : ℤ) (h : seed.date = some d) :
    (predictS ops st seed days now).2 = st ∧
    (predictS ops st seed days now).1 = (predictS ops st seed days now2).1 ∧
    (predictS ops (predictS ops st seed days now).2 seed days now).1 =
      (predictS ops st seed days now).1 := by
  refine ⟨rfl, ?_, rfl⟩
  simp only [predictS, predictE]
  rw [seedFrame_of_some seed now now2 d h]

theorem c9_witness :
    seedSparse.date = some 100 ∧
    (predictS opsC ⟨models1, fcolsC6⟩ seedSparse 1 0).1 =
      (predictS opsC ⟨models1, fcolsC6⟩ seedSparse 1 99).1 :=
  ⟨rfl, (c9_predict_deterministic_stateless opsC ⟨models1, fcolsC6⟩ seedSparse 1 0 99 100 rfl).2.1⟩

/-- C10: `engineer_features` is a pure transform: run under the store
semantics, every stage mutates only the fresh copy it allocates, so every
frame that existed before the call — in particular the input frame — is
unchanged afterwards, and the result slot holds exactly the value of the
functional pipeline. -/
theorem c10_engineer_features_pure (ops : NumOps) (s : List Frame) (i : ℕ) :
    (∀ k, k < s.length →
      (engineerFeaturesH ops s i).1.getD k emptyFrame = s.getD k emptyFrame) ∧
    (engineerFeaturesH ops s i).1.getD (engineerFeaturesH ops s i).2 emptyFrame =
      engineerFeatures ops (s.getD i emptyFrame) := by
  constructor
  · intro k hk
    simp only [engineerFeaturesH, stageH_eq, getD_append_last]
    simp only [List.append_assoc]
    rw [List.getD_append _ _ _ _ hk]
  · simp only [engineerFeaturesH, stageH_eq, getD_append_last]
    rfl

theorem c10_witness :
    0 < storeW.length ∧
    (engineerFeaturesH opsC storeW 0).1.getD 0 emptyFrame = storeW.getD 0 emptyFrame :=
  ⟨by decide, (c10_engineer_features_pure opsC storeW 0).1 0 (by decide)⟩

end WeatherSpec
